import Mathlib

/-!
Shallow embedding of the OMR evaluation core of this repository
(`src/omr_processor.py`, imported by the Streamlit orchestrator `src/app.py`).

The module exposes three functions:
* `get_answer_keys()` builds the per-exam-set answer keys;
* `find_and_warp_sheet(image_bgr)` is the sheet rectifier;
* `evaluate_sheet(warped_bgr, answer_key)` is the bubble scorer.

Images are numpy `ndarray`s; they are embedded as a shape (list of dimension
sizes) together with flattened element data.  The scorer draws from a
`numpy.random.RandomState` seeded with `(h + w) % 100`; the RandomState is
embedded as a deterministic pseudo-random generator with the same interface
and the same documented contract (seed-determined stream, `randint lo hi`
uniform over `[lo, hi)`).  Mutation in the Python code (`cv2.putText` writing
into the copied array) is embedded by explicit state passing: `evaluate_sheet`
returns both the result and the post-call value of its input array.
-/

namespace OMR

/-- A numpy `ndarray` value: its `shape` (list of dimension sizes) and its
flattened element `data`.  The scorer reads only `shape[:2]` and copies the
array for its overlay; pixel values are carried so that claims about
pixel-(in)dependence are expressible. -/
structure NDArray where
  shape : List Nat
  data : List Nat
deriving DecidableEq

/-- numpy `ndarray.copy()`: a fresh array with identical contents.  State is
threaded explicitly in this embedding, so a copy is the same value; the
aliasing consequences of `copy` show up in which value `evaluate_sheet`
returns as its post-call input state. -/
def NDArray.copy (a : NDArray) : NDArray := a

/-- Model of `numpy.random.RandomState`: a deterministic pseudo-random
generator identified by its current internal state.  The exact stream of
numpy's Mersenne Twister is irrelevant to every claim below; what is modelled
faithfully is the documented contract: the stream is a pure function of the
seed, and `randint lo hi` yields values in `[lo, hi)`. -/
structure RandomState where
  state : Nat
deriving DecidableEq

/-- `numpy.random.RandomState(seed)`: the initial internal state is a pure
function of the seed. -/
def RandomState.create (seed : Nat) : RandomState :=
  ⟨(seed + 1) * 2654435761 % 4294967296⟩

/-- One step of the generator: next raw output and successor state
(a 32-bit linear-congruential step, standing in for the Mersenne Twister). -/
def RandomState.nextNat (r : RandomState) : Nat × RandomState :=
  let s := (r.state * 1664525 + 1013904223) % 4294967296
  (s / 65536, ⟨s⟩)

/-- `rng.randint(lo, hi)`: a draw in the half-open interval `[lo, hi)`,
advancing the generator state. -/
def RandomState.randint (r : RandomState) (lo hi : Nat) : Nat × RandomState :=
  let p := r.nextNat
  (lo + p.1 % (hi - lo), p.2)

/-- Model of `cv2.putText(img, text, (x, y), ...)`: a deterministic overlay of
the rendered text onto the image data, preserving the shape and the number of
elements.  The exact glyph raster is irrelevant to the claims; what matters is
that the overlay is a pure function of the image, the text and the position,
and that it produces a new value rather than touching the argument. -/
def cvPutText (img : NDArray) (text : String) (x y : Nat) : NDArray :=
  let overlay := text.toList.map (fun c => (c.toNat + x + y) % 256)
  { img with data := (overlay ++ img.data).take img.data.length }

/-- An answer key: the Python dict mapping question number to option letter,
embedded as an association list in insertion order. -/
abbrev AnswerKey := List (Nat × String)

/-- Python `d.get(i, default)` on an answer key. -/
def dget (d : AnswerKey) (i : Nat) (dflt : String) : String :=
  (d.lookup i).getD dflt

/-- `get_answer_keys` from `omr_processor.py`: for each set name in
`["SET-A", "SET-B"]`, the key maps every `i` in `range(1, 101)` to
`["A","B","C","D"][(i-1) % 4]`. -/
def get_answer_keys : List (String × AnswerKey) :=
  ["SET-A", "SET-B"].map (fun set_name =>
    (set_name,
      (List.range' 1 100).map
        (fun i => (i, ["A", "B", "C", "D"].getD ((i - 1) % 4) "A"))))

/-- `find_and_warp_sheet` from `omr_processor.py`: the body is
`return image_bgr`. -/
def find_and_warp_sheet (image_bgr : NDArray) : NDArray := image_bgr

/-- The result dict built by `evaluate_sheet`. -/
structure EvaluationResult where
  subject_scores : List Nat
  total_score : Nat
  ambiguous_questions : Nat
  visual_result : NDArray
  raw_answers : List (Nat × String)
deriving DecidableEq

/-- The comprehension `[int(rng.randint(10, 20)) for _ in range(5)]`:
`n` successive draws from `[10, 20)`, threading the generator. -/
def drawScores (rng : RandomState) : Nat → List Nat × RandomState
  | 0 => ([], rng)
  | n + 1 =>
    let d := rng.randint 10 20
    let rest := drawScores d.2 n
    (d.1 :: rest.1, rest.2)

/-- `evaluate_sheet` from `omr_processor.py`.  `h, w = warped_bgr.shape[:2]`
fails (Python `ValueError`) when the array has fewer than two dimensions,
hence the `Except`; on every array with at least two dimensions the body runs
to the final `return`.  The second component of the returned pair is the value
of the input array after the call (the overlay text is drawn on a `copy`). -/
def evaluate_sheet (warped_bgr : NDArray) (answer_key : AnswerKey) :
    Except String (EvaluationResult × NDArray) :=
  match warped_bgr.shape with
  | h :: w :: _ =>
    let rng := RandomState.create ((h + w) % 100)
    let drawn := drawScores rng 5
    let subject_scores := drawn.1
    let total_score := subject_scores.sum
    let amb := drawn.2.randint 0 2
    let vis := cvPutText warped_bgr.copy
        ("Simulated Score: " ++ toString total_score ++ "/100") 30 40
    let raw_answers := (List.range' 1 100).map (fun i => (i, dget answer_key i "A"))
    Except.ok
      ({ subject_scores := subject_scores, total_score := total_score,
         ambiguous_questions := amb.1, visual_result := vis,
         raw_answers := raw_answers }, warped_bgr)
  | _ => Except.error "not enough values to unpack"

/-- Checks membership in the fixed option alphabet `{A, B, C, D}`. -/
def isOptionLetter (s : String) : Bool :=
  s == "A" || s == "B" || s == "C" || s == "D"

/-- A concrete 2 x 2 x 3 all-zero test image (structurally valid). -/
def img22 : NDArray := ⟨[2, 2, 3], List.replicate 12 0⟩

/-- A concrete 2 x 2 x 3 all-255 test image: same dimensions as `img22`,
different pixel content. -/
def img22b : NDArray := ⟨[2, 2, 3], List.replicate 12 255⟩

/-- The answer key of the end-to-end scenario: `{1:"A", 2:"B", 3:"C"}`. -/
def k3 : AnswerKey := [(1, "A"), (2, "B"), (3, "C")]

/- ------------------------------------------------------------------ -/
/- Helper lemmas                                                      -/
/- ------------------------------------------------------------------ -/

theorem randint_bounds (r : RandomState) (lo hi : Nat) (hlt : lo < hi) :
    lo ≤ (r.randint lo hi).1 ∧ (r.randint lo hi).1 < hi := by
  have hmod : r.nextNat.1 % (hi - lo) < hi - lo := Nat.mod_lt _ (by omega)
  constructor
  · exact Nat.le_add_right _ _
  · show lo + r.nextNat.1 % (hi - lo) < hi
    omega

theorem drawScores_length (g : RandomState) (n : Nat) :
    (drawScores g n).1.length = n := by
  induction n generalizing g with
  | zero => rfl
  | succ n ih => simp [drawScores, ih]

theorem drawScores_mem (g : RandomState) (n : Nat) :
    ∀ x ∈ (drawScores g n).1, 10 ≤ x ∧ x ≤ 19 := by
  induction n generalizing g with
  | zero => intro x hx; simp [drawScores] at hx
  | succ n ih =>
    intro x hx
    simp only [drawScores, List.mem_cons] at hx
    rcases hx with h | h
    · have hb := randint_bounds g 10 20 (by omega)
      omega
    · exact ih _ x h

theorem drawScores_sum (g : RandomState) (n : Nat) :
    10 * n ≤ (drawScores g n).1.sum ∧ (drawScores g n).1.sum ≤ 19 * n := by
  induction n generalizing g with
  | zero => simp [drawScores]
  | succ n ih =>
    have hb := randint_bounds g 10 20 (by omega)
    have ht := ih (g.randint 10 20).2
    simp only [drawScores, List.sum_cons]
    omega

theorem lookup_range_pairs (f : Nat → String) (i : Nat) :
    ∀ s n : Nat, s ≤ i → i < s + n →
      (((List.range' s n).map (fun j => (j, f j))).lookup i) = some (f i) := by
  intro s n
  induction n generalizing s with
  | zero => omega
  | succ n ih =>
    intro h1 h2
    rw [List.range'_succ]
    by_cases he : i = s
    · subst he
      simp [List.lookup]
    · simp only [List.map_cons, List.lookup_cons]
      have : (i == s) = false := by simp [he]
      rw [this]
      exact ih (s + 1) (by omega) (by omega)

/-- The single evaluation equation: on an array whose shape has at least two
dimensions, `evaluate_sheet` returns the explicit result record and the
unchanged input array. -/
theorem evaluate_sheet_eq (warped : NDArray) (key : AnswerKey)
    (hd wd : Nat) (t : List Nat) (hs : warped.shape = hd :: wd :: t) :
    evaluate_sheet warped key = Except.ok
      ({ subject_scores := (drawScores (RandomState.create ((hd + wd) % 100)) 5).1,
         total_score := (drawScores (RandomState.create ((hd + wd) % 100)) 5).1.sum,
         ambiguous_questions :=
           ((drawScores (RandomState.create ((hd + wd) % 100)) 5).2.randint 0 2).1,
         visual_result := cvPutText warped.copy
           ("Simulated Score: " ++
             toString (drawScores (RandomState.create ((hd + wd) % 100)) 5).1.sum ++
             "/100") 30 40,
         raw_answers := (List.range' 1 100).map (fun i => (i, dget key i "A")) },
        warped) := by
  unfold evaluate_sheet
  rw [hs]

/- ------------------------------------------------------------------ -/
/- Claim theorems                                                     -/
/- ------------------------------------------------------------------ -/

/-- C2: the claim says `find_and_warp_sheet` fails with `DetectionError` on
every image without a sheet-like quadrilateral.  The code has no failure path
at all: it is the identity on images (so in particular, on a featureless
all-zero image it returns the image instead of failing). -/
theorem find_and_warp_sheet_identity (image_bgr : NDArray) :
    find_and_warp_sheet image_bgr = image_bgr := rfl

/-- C3: on every structurally valid rectified image (an array with at least
two dimensions, so that `h, w = warped_bgr.shape[:2]` succeeds) and any
answer key, `evaluate_sheet` returns normally; ambiguity is reported only in
the `ambiguous_questions` field of the result, never as an error. -/
theorem evaluate_sheet_never_errors (warped : NDArray) (key : AnswerKey)
    (hvalid : 2 ≤ warped.shape.length) :
    ∃ r, evaluate_sheet warped key = Except.ok r := by
  rcases hshape : warped.shape with _ | ⟨a, _ | ⟨b, t⟩⟩
  · rw [hshape] at hvalid; simp at hvalid
  · rw [hshape] at hvalid; simp at hvalid
  · exact ⟨_, evaluate_sheet_eq warped key a b t hshape⟩

theorem evaluate_sheet_never_errors_witness :
    2 ≤ img22.shape.length ∧ ∃ r, evaluate_sheet img22 k3 = Except.ok r :=
  ⟨by decide, evaluate_sheet_never_errors img22 k3 (by decide)⟩

/-- C4: `evaluate_sheet` is deterministic and idempotent: two calls on equal
inputs return equal results in every field, the visualization image included.
The embedding is a pure function because the code's only source of randomness,
`numpy.random.RandomState`, is seeded exclusively from the input image's
dimensions, so the generated stream is a function of the inputs. -/
theorem evaluate_sheet_deterministic (w1 w2 : NDArray) (k1 k2 : AnswerKey)
    (hw : w1 = w2) (hk : k1 = k2) :
    evaluate_sheet w1 k1 = evaluate_sheet w2 k2 := by
  rw [hw, hk]

theorem evaluate_sheet_deterministic_witness :
    img22 = img22 ∧ k3 = k3 ∧
      evaluate_sheet img22 k3 = evaluate_sheet img22 k3 :=
  ⟨rfl, rfl, evaluate_sheet_deterministic img22 img22 k3 k3 rfl rfl⟩

/-- C5: on every structurally valid image and key, the result satisfies
`total_score = subject_scores.sum` and `total_score ≤ 100`. -/
theorem evaluate_sheet_total_is_sum (warped : NDArray) (key : AnswerKey)
    (hd wd : Nat) (t : List Nat) (hs : warped.shape = hd :: wd :: t) :
    ∃ r s, evaluate_sheet warped key = Except.ok (r, s) ∧
      r.total_score = r.subject_scores.sum ∧ r.total_score ≤ 100 := by
  refine ⟨_, _, evaluate_sheet_eq warped key hd wd t hs, rfl, ?_⟩
  show (drawScores (RandomState.create ((hd + wd) % 100)) 5).1.sum ≤ 100
  have := drawScores_sum (RandomState.create ((hd + wd) % 100)) 5
  omega

theorem evaluate_sheet_total_is_sum_witness :
    img22.shape = 2 :: 2 :: [3] ∧
    ∃ r s, evaluate_sheet img22 k3 = Except.ok (r, s) ∧
      r.total_score = r.subject_scores.sum ∧ r.total_score ≤ 100 :=
  ⟨rfl, evaluate_sheet_total_is_sum img22 k3 2 2 [3] rfl⟩

/-- C7: `evaluate_sheet` leaves its input image unchanged: the overlay is
drawn on a `copy`, so the post-call value of the caller's array (the second
component of the embedded result) is the input itself. -/
theorem evaluate_sheet_preserves_input (warped : NDArray) (key : AnswerKey)
    (hd wd : Nat) (t : List Nat) (hs : warped.shape = hd :: wd :: t) :
    ∃ r, evaluate_sheet warped key = Except.ok (r, warped) :=
  ⟨_, evaluate_sheet_eq warped key hd wd t hs⟩

theorem evaluate_sheet_preserves_input_witness :
    img22.shape = 2 :: 2 :: [3] ∧
    ∃ r, evaluate_sheet img22 k3 = Except.ok (r, img22) :=
  ⟨rfl, evaluate_sheet_preserves_input img22 k3 2 2 [3] rfl⟩

/-- C6: `get_answer_keys` maps the exam-set identifiers `"SET-A"` and
`"SET-B"` to answer keys whose question numbers are exactly the contiguous
range `1..100`, each mapped to exactly one option letter from `{A, B, C, D}`. -/
theorem get_answer_keys_wellformed :
    get_answer_keys.map Prod.fst = ["SET-A", "SET-B"] ∧
    (get_answer_keys.all (fun p =>
      (p.2.map Prod.fst == List.range' 1 100) &&
        p.2.all (fun q => isOptionLetter q.2))) = true := by decide

/-- C8: the numeric fields of the result (`subject_scores`, `total_score`,
`ambiguous_questions`, `raw_answers`) depend only on the image's height and
width (through the seed `(h + w) % 100`) and on the key: two images with the
same first two shape entries produce identical numeric fields whatever their
pixel data. -/
theorem evaluate_sheet_depends_only_on_dims (a b : NDArray) (key : AnswerKey)
    (hd wd : Nat) (ta tb : List Nat)
    (ha : a.shape = hd :: wd :: ta) (hb : b.shape = hd :: wd :: tb) :
    ∃ r1 r2, evaluate_sheet a key = Except.ok (r1, a) ∧
      evaluate_sheet b key = Except.ok (r2, b) ∧
      r1.subject_scores = r2.subject_scores ∧
      r1.total_score = r2.total_score ∧
      r1.ambiguous_questions = r2.ambiguous_questions ∧
      r1.raw_answers = r2.raw_answers :=
  ⟨_, _, evaluate_sheet_eq a key hd wd ta ha,
    evaluate_sheet_eq b key hd wd tb hb, rfl, rfl, rfl, rfl⟩

theorem evaluate_sheet_depends_only_on_dims_witness :
    img22.shape = 2 :: 2 :: [3] ∧ img22b.shape = 2 :: 2 :: [3] ∧
    ∃ r1 r2, evaluate_sheet img22 k3 = Except.ok (r1, img22) ∧
      evaluate_sheet img22b k3 = Except.ok (r2, img22b) ∧
      r1.subject_scores = r2.subject_scores ∧
      r1.total_score = r2.total_score ∧
      r1.ambiguous_questions = r2.ambiguous_questions ∧
      r1.raw_answers = r2.raw_answers :=
  ⟨rfl, rfl,
    evaluate_sheet_depends_only_on_dims img22 img22b k3 2 2 [3] [3] rfl rfl⟩

/-- C9: the returned `raw_answers` is exactly the key restricted to questions
`1..100`, with default `"A"`: its question numbers are exactly `1..100`, and
the entry at every `i` in `1..100` is `key.get(i, "A")` — the sheet is always
reported as having detected the key's own answer, independent of the image. -/
theorem evaluate_sheet_raw_answers_mirror_key (warped : NDArray)
    (key : AnswerKey) (hd wd : Nat) (t : List Nat)
    (hs : warped.shape = hd :: wd :: t) :
    ∃ r s, evaluate_sheet warped key = Except.ok (r, s) ∧
      r.raw_answers.map Prod.fst = List.range' 1 100 ∧
      ∀ i, 1 ≤ i → i ≤ 100 → r.raw_answers.lookup i = some (dget key i "A") := by
  refine ⟨_, _, evaluate_sheet_eq warped key hd wd t hs, ?_, ?_⟩
  · show ((List.range' 1 100).map (fun i => (i, dget key i "A"))).map Prod.fst
        = List.range' 1 100
    simp [Function.comp_def]
  · intro i h1 h2
    exact lookup_range_pairs (fun j => dget key j "A") i 1 100 h1 (by omega)

theorem evaluate_sheet_raw_answers_mirror_key_witness :
    img22.shape = 2 :: 2 :: [3] ∧
    ∃ r s, evaluate_sheet img22 k3 = Except.ok (r, s) ∧
      r.raw_answers.map Prod.fst = List.range' 1 100 ∧
      ∀ i, 1 ≤ i → i ≤ 100 → r.raw_answers.lookup i = some (dget k3 i "A") :=
  ⟨rfl, evaluate_sheet_raw_answers_mirror_key img22 k3 2 2 [3] rfl⟩

/-- C10: on every structurally valid image and key, the result has exactly 5
subject scores, each between 10 and 19, a total between 50 and 95, and an
ambiguous-question count of 0 or 1 — whatever the image content (a blank
sheet included). -/
theorem evaluate_sheet_score_ranges (warped : NDArray) (key : AnswerKey)
    (hd wd : Nat) (t : List Nat) (hs : warped.shape = hd :: wd :: t) :
    ∃ r s, evaluate_sheet warped key = Except.ok (r, s) ∧
      r.subject_scores.length = 5 ∧
      (∀ x ∈ r.subject_scores, 10 ≤ x ∧ x ≤ 19) ∧
      50 ≤ r.total_score ∧ r.total_score ≤ 95 ∧ r.ambiguous_questions ≤ 1 := by
  refine ⟨_, _, evaluate_sheet_eq warped key hd wd t hs, ?_, ?_, ?_, ?_, ?_⟩
  · exact drawScores_length _ 5
  · exact drawScores_mem _ 5
  · show 50 ≤ (drawScores (RandomState.create ((hd + wd) % 100)) 5).1.sum
    have := drawScores_sum (RandomState.create ((hd + wd) % 100)) 5
    omega
  · show (drawScores (RandomState.create ((hd + wd) % 100)) 5).1.sum ≤ 95
    have := drawScores_sum (RandomState.create ((hd + wd) % 100)) 5
    omega
  · show ((drawScores (RandomState.create ((hd + wd) % 100)) 5).2.randint 0 2).1 ≤ 1
    have := randint_bounds
      (drawScores (RandomState.create ((hd + wd) % 100)) 5).2 0 2 (by omega)
    omega

theorem evaluate_sheet_score_ranges_witness :
    img22.shape = 2 :: 2 :: [3] ∧
    ∃ r s, evaluate_sheet img22 k3 = Except.ok (r, s) ∧
      r.subject_scores.length = 5 ∧
      (∀ x ∈ r.subject_scores, 10 ≤ x ∧ x ≤ 19) ∧
      50 ≤ r.total_score ∧ r.total_score ≤ 95 ∧ r.ambiguous_questions ≤ 1 :=
  ⟨rfl, evaluate_sheet_score_ranges img22 k3 2 2 [3] rfl⟩

/-- C1: the concrete behavior of the code at the end-to-end scenario's inputs
(key `{1:"A", 2:"B", 3:"C"}`, any rectified sheet — pixel content is never
read, so the described markings cannot influence the result): `raw_answers`
reports the key's own answer `"B"` for question 2 (the claim expects `none`)
and `"C"` for question 3 (the claim expects an ambiguous marker), and the
total score is at least 50, never the claimed 1. -/
theorem evaluate_sheet_stub_scenario :
    ∃ r s, evaluate_sheet img22 k3 = Except.ok (r, s) ∧
      r.raw_answers.lookup 2 = some "B" ∧
      r.raw_answers.lookup 3 = some "C" ∧
      50 ≤ r.total_score ∧ r.total_score ≠ 1 := by
  refine ⟨_, _, evaluate_sheet_eq img22 k3 2 2 [3] rfl, ?_, ?_, ?_, ?_⟩
  · decide
  · decide
  · decide
  · decide

end OMR
